import Mathlib

/-!
Shallow embedding of `app.py` (MovieGraphApp): a movie-graph explorer over a
property-graph database, with three read operations (`search_movies`,
`get_movie_details`, `generate_graph_json`) and a JSON export artifact.

The database is modelled as a list of movies, a list of (person, movie,
relationship-type) edges, and a `fail` flag standing for an infrastructure
failure raised by `session.run` (connection refused / query error).  The
Cypher queries of the source are translated into Lean functions over this
model; the Python-side result shaping is translated line by line.
-/

namespace MovieGraph

/-! ## Python string helpers (`str.strip`, `str.replace(' ', '_')`, `CONTAINS`) -/

/-- Python whitespace test for the characters relevant to `str.strip`. -/
def pyIsSpace (c : Char) : Bool :=
  c = ' ' || c = '\t' || c = '\n' || c = '\r' || c = '\x0b' || c = '\x0c'

/-- `str.strip` on a character list: drop whitespace at both ends. -/
def pyStripList (l : List Char) : List Char :=
  (((l.dropWhile pyIsSpace).reverse.dropWhile pyIsSpace)).reverse

/-- Python `str.strip()`. -/
def pyStrip (s : String) : String := ⟨pyStripList s.data⟩

/-- Python `str.replace(' ', '_')` (the id-derivation substitution). -/
def pyUnderscore (s : String) : String :=
  ⟨s.data.map (fun c => if c = ' ' then '_' else c)⟩

/-- Does `needle` occur at the start of `hay`? -/
def startsWithL : List Char → List Char → Bool
  | _, [] => true
  | [], _ :: _ => false
  | c :: cs, d :: ds => c = d && startsWithL cs ds

/-- Substring occurrence on character lists (Cypher `CONTAINS`, case sensitive). -/
def containsSub : List Char → List Char → Bool
  | [], needle => needle.isEmpty
  | hay@(_ :: t), needle => startsWithL hay needle || containsSub t needle

/-- Cypher `m.title CONTAINS $search_term`. -/
def strContains (hay needle : String) : Bool := containsSub hay.data needle.data

/-! ## Generic list helpers -/

/-- First-occurrence deduplication, accumulating the already-seen elements
(used to model Cypher `collect(DISTINCT …)`, which keeps first-encounter order). -/
def dedupAux [DecidableEq α] (seen : List α) : List α → List α
  | [] => []
  | x :: xs => if x ∈ seen then dedupAux seen xs else x :: dedupAux (seen ++ [x]) xs

/-- First-occurrence deduplication. -/
def dedupFirst [DecidableEq α] (l : List α) : List α := dedupAux [] l

/-! ## Data model: the property-graph database -/

/-- A `Person` node of the graph database (node identity plus `name` property). -/
structure Person where
  pid : Nat
  name : String
deriving DecidableEq

/-- A `Movie` node's properties (`title`, optional `released`, optional `tagline`). -/
structure Movie where
  title : String
  released : Option Int
  tagline : Option String
deriving DecidableEq

/-- Relationship types appearing in the queries. -/
inductive RelType where
  | directed
  | actedIn
deriving DecidableEq

/-- A `(Person)-[:DIRECTED|ACTED_IN]->(Movie)` relationship; duplicates may occur. -/
structure Rel where
  person : Person
  movieTitle : String
  rtype : RelType
deriving DecidableEq

/-- The database together with a flag modelling an infrastructure failure
raised by `session.run` (connection refused, query execution error). -/
structure DB where
  movies : List Movie
  rels : List Rel
  fail : Bool

/-- `MATCH (m:Movie {title: $title})` resolved to at most one record
(`result.single()`). -/
def findMovie (db : DB) (title : String) : Option Movie :=
  db.movies.find? (fun m => m.title == title)

/-- Persons with a `DIRECTED` relationship to the movie, in database order,
one occurrence per relationship (duplicates preserved at this stage). -/
def dbDirectors (db : DB) (title : String) : List Person :=
  (db.rels.filter (fun r => r.movieTitle == title && r.rtype == RelType.directed)).map
    (fun r => r.person)

/-- Persons with an `ACTED_IN` relationship to the movie, in database order. -/
def dbActors (db : DB) (title : String) : List Person :=
  (db.rels.filter (fun r => r.movieTitle == title && r.rtype == RelType.actedIn)).map
    (fun r => r.person)

/-! ## `search_movies` -/

/-- `ORDER BY m.released DESC` comparator: in the database, `null` sorts as the
greatest value, hence first under `DESC`. -/
def releasedGE (a b : Movie) : Bool :=
  match a.released, b.released with
  | none, _ => true
  | some _, none => false
  | some x, some y => y ≤ x

/-- Insertion step of the `ORDER BY … DESC` sort. -/
def insertByReleased (m : Movie) : List Movie → List Movie
  | [] => [m]
  | x :: xs => if releasedGE m x then m :: x :: xs else x :: insertByReleased m xs

/-- `ORDER BY m.released DESC` (insertion sort, stable). -/
def sortByReleasedDesc : List Movie → List Movie
  | [] => []
  | m :: ms => insertByReleased m (sortByReleasedDesc ms)

/-- The search query: title substring match, ordered by release year descending.
Each returned record carries exactly the movie's `title`/`released`/`tagline`. -/
def searchQueryRows (db : DB) (term : String) : List Movie :=
  sortByReleasedDesc (db.movies.filter (fun m => strContains m.title term))

/-- `search_movies`: returns the list of found movies together with the number
of queries issued to the data store (0 when the guard short-circuits, 1
otherwise).  An infrastructure failure is caught and mapped to `[]`. -/
def search_movies (db : DB) (term : String) : List Movie × Nat :=
  if term = "" ∨ pyStrip term = "" then ([], 0)
  else if db.fail then ([], 1)
  else (searchQueryRows db (pyStrip term), 1)

/-! ## `get_movie_details` -/

/-- The dictionary returned by `get_movie_details`. -/
structure MovieDetail where
  title : String
  released : Option Int
  tagline : Option String
  directors : List String
  actors : List String
deriving DecidableEq

/-- `collect(DISTINCT d.name)` over the outer-join rows: an empty group yields
the single `null` placeholder, otherwise the deduplicated names in
first-encounter order. -/
def collectDistinctNames (ps : List Person) : List (Option String) :=
  match dedupFirst (ps.map (fun p => p.name)) with
  | [] => [none]
  | ns => ns.map some

/-- `get_movie_details`: detail aggregation with null filtering.  Both an
absent movie and an infrastructure failure are mapped to `none`. -/
def get_movie_details (db : DB) (title : String) : Option MovieDetail :=
  if db.fail then none
  else
    match findMovie db title with
    | none => none
    | some m =>
      some { title := m.title, released := m.released, tagline := m.tagline,
             directors := (collectDistinctNames (dbDirectors db title)).filterMap id,
             actors := (collectDistinctNames (dbActors db title)).filterMap id }

/-! ## The export-source query (`generate_graph_json`, lines 100-116) -/

/-- One element of `collect(DISTINCT {person: d, rel: '…'})`: an optional
person (the outer join yields a `null` placeholder) tagged with the constant
relationship label. -/
structure RelEntry where
  person : Option Person
  rel : String
deriving DecidableEq

/-- `collect(DISTINCT {person: p, rel: rel})` over the outer-join rows: the
`rel` component is constant, so `DISTINCT` deduplicates by person (node
identity); an empty group yields the single null-placeholder entry. -/
def collectDistinctEntries (rel : String) (ps : List Person) : List RelEntry :=
  match dedupFirst ps with
  | [] => [{ person := none, rel := rel }]
  | qs => qs.map (fun q => { person := some q, rel := rel })

/-- The record returned by the export-source query (`m`, `director_rels`,
`actor_rels`). -/
structure ExportRecord where
  m : Movie
  director_rels : List RelEntry
  actor_rels : List RelEntry

/-- The export-source query: `none` when no movie matches the title
(`result.single()` finds no record). -/
def runExportQuery (db : DB) (title : String) : Option ExportRecord :=
  match findMovie db title with
  | none => none
  | some m =>
    some { m := m,
           director_rels := collectDistinctEntries "DIRECTED" (dbDirectors db title),
           actor_rels := collectDistinctEntries "ACTED_IN" (dbActors db title) }

/-! ## The graph builder (`generate_graph_json`, lines 119-182) -/

/-- A node of the exported graph: the Python code builds two dict shapes,
`{id, label, type: 'Movie', released, tagline}` and
`{id, label, type: 'Person', role}`. -/
inductive GraphNode where
  | movie (id label : String) (released : Option Int) (tagline : Option String)
  | person (id label role : String)
deriving DecidableEq

/-- The `id` field of a node. -/
def GraphNode.nodeId : GraphNode → String
  | .movie i _ _ _ => i
  | .person i _ _ => i

/-- A link of the exported graph (`{source, target, type}`). -/
structure GraphLink where
  source : String
  target : String
  type : String
deriving DecidableEq

/-- The exported node/link graph (`graph_data`). -/
structure ExportGraph where
  nodes : List GraphNode
  links : List GraphLink
deriving DecidableEq

/-- `"person_" + person['name'].replace(' ', '_')`. -/
def personIdOf (p : Person) : String := "person_" ++ pyUnderscore p.name

/-- The mutable state of the build loops: `nodes`, the `node_ids` set
(modelled as the list of inserted ids) and `links`. -/
structure ExportState where
  nodes : List GraphNode
  node_ids : List String
  links : List GraphLink

/-- One iteration of the `for dir_rel in record['director_rels']` /
`for act_rel in record['actor_rels']` loops: skip the null placeholder,
add a node unless the id was already seen, always append a link. -/
def processRel (movie_id role rtype : String) (st : ExportState) (e : RelEntry) :
    ExportState :=
  match e.person with
  | none => st
  | some person =>
    let person_id := personIdOf person
    let st1 :=
      if person_id ∈ st.node_ids then st
      else { st with nodes := st.nodes ++ [GraphNode.person person_id person.name role],
                     node_ids := st.node_ids ++ [person_id] }
    { st1 with links := st1.links ++ [{ source := person_id, target := movie_id,
                                        type := rtype }] }

/-- Lines 119-182: movie node first, then the two relationship loops. -/
def buildGraph (er : ExportRecord) : ExportGraph :=
  let movie_id := "movie_" ++ pyUnderscore er.m.title
  let st0 : ExportState :=
    { nodes := [GraphNode.movie movie_id er.m.title er.m.released er.m.tagline],
      node_ids := [movie_id], links := [] }
  let st1 := er.director_rels.foldl (processRel movie_id "Director" "DIRECTED") st0
  let st2 := er.actor_rels.foldl (processRel movie_id "Actor" "ACTED_IN") st1
  { nodes := st2.nodes, links := st2.links }

/-- The in-memory graph produced by `generate_graph_json` (`none` when the
query raised or found no record). -/
def generateGraph (db : DB) (title : String) : Option ExportGraph :=
  if db.fail then none
  else (runExportQuery db title).map buildGraph

/-! ## JSON serialization (`json.dump(..., ensure_ascii=False, indent=2)`) -/

/-- JSON values; string payloads are stored in their escaped (serialized)
form, so that the text-level escaping of `json.dump` is part of the model. -/
inductive Json where
  | null
  | num (n : Int)
  | str (s : String)
  | arr (elems : List Json)
  | obj (fields : List (String × Json))

/-- Lower-case hexadecimal digit (as in Python's `'\u%04x'`). -/
def hexDigit (n : Nat) : Char := "0123456789abcdef".data.getD n '0'

/-- Value of a hexadecimal digit. -/
def hexVal (c : Char) : Option Nat :=
  if 48 ≤ c.toNat ∧ c.toNat ≤ 57 then some (c.toNat - 48)
  else if 97 ≤ c.toNat ∧ c.toNat ≤ 102 then some (c.toNat - 87)
  else if 65 ≤ c.toNat ∧ c.toNat ≤ 70 then some (c.toNat - 55)
  else none

/-- Python `json` string escaping with `ensure_ascii=False`: only `\`, `"`,
the short control escapes and `\u00xx` for the remaining control characters;
every other character (including non-ASCII) passes through verbatim. -/
def escapeChar (c : Char) : List Char :=
  if c = '\\' then ['\\', '\\']
  else if c = '"' then ['\\', '"']
  else if c = '\x08' then ['\\', 'b']
  else if c = '\x0c' then ['\\', 'f']
  else if c = '\n' then ['\\', 'n']
  else if c = '\r' then ['\\', 'r']
  else if c = '\t' then ['\\', 't']
  else if c.toNat < 32 then
    ['\\', 'u', '0', '0', hexDigit (c.toNat / 16), hexDigit (c.toNat % 16)]
  else [c]

/-- String escaping, character by character. -/
def escapeList : List Char → List Char
  | [] => []
  | c :: cs => escapeChar c ++ escapeList cs

/-- Serialized form of a JSON string payload. -/
def escapeJson (s : String) : String := ⟨escapeList s.data⟩

/-- Decoding of a single short escape. -/
def unescapeChar (c : Char) : Option Char :=
  if c = '\\' then some '\\'
  else if c = '"' then some '"'
  else if c = 'b' then some '\x08'
  else if c = 'f' then some '\x0c'
  else if c = 'n' then some '\n'
  else if c = 'r' then some '\r'
  else if c = 't' then some '\t'
  else if c = '/' then some '/'
  else none

/-- JSON string unescaping (the parser side of the round trip). -/
def unescapeList : List Char → Option (List Char)
  | [] => some []
  | c :: rest =>
    if c = '\\' then
      match rest with
      | [] => none
      | e :: rest2 =>
        if e = 'u' then
          match rest2 with
          | h1 :: h2 :: h3 :: h4 :: rest3 =>
            match hexVal h1, hexVal h2, hexVal h3, hexVal h4, unescapeList rest3 with
            | some a, some b, some cc, some d, some out =>
              some (Char.ofNat (4096 * a + 256 * b + 16 * cc + d) :: out)
            | _, _, _, _, _ => none
          | _ => none
        else
          match unescapeChar e, unescapeList rest2 with
          | some ch, some out => some (ch :: out)
          | _, _ => none
    else
      match unescapeList rest with
      | some out => some (c :: out)
      | none => none

/-- String unescaping. -/
def unescapeJson (s : String) : Option String := (unescapeList s.data).map String.mk

/-- `None`/int serialization for the `released` field. -/
def optIntToJson : Option Int → Json
  | none => Json.null
  | some n => Json.num n

/-- `None`/str serialization for the `tagline` field. -/
def optStrToJson : Option String → Json
  | none => Json.null
  | some s => Json.str (escapeJson s)

/-- Serialization of a node dict, with the key order of the source. -/
def encodeNode : GraphNode → Json
  | .movie i l r t =>
    Json.obj [("id", Json.str (escapeJson i)), ("label", Json.str (escapeJson l)),
              ("type", Json.str "Movie"), ("released", optIntToJson r),
              ("tagline", optStrToJson t)]
  | .person i l ro =>
    Json.obj [("id", Json.str (escapeJson i)), ("label", Json.str (escapeJson l)),
              ("type", Json.str "Person"), ("role", Json.str (escapeJson ro))]

/-- Serialization of a link dict. -/
def encodeLink (l : GraphLink) : Json :=
  Json.obj [("source", Json.str (escapeJson l.source)),
            ("target", Json.str (escapeJson l.target)),
            ("type", Json.str (escapeJson l.type))]

/-- Serialization of `graph_data` (`{'nodes': …, 'links': …}`). -/
def encodeGraph (g : ExportGraph) : Json :=
  Json.obj [("nodes", Json.arr (g.nodes.map encodeNode)),
            ("links", Json.arr (g.links.map encodeLink))]

/-- Parsing of the `released` field. -/
def decodeOptInt : Json → Option (Option Int)
  | Json.null => some none
  | Json.num n => some (some n)
  | _ => none

/-- Parsing of the `tagline` field. -/
def decodeOptStr : Json → Option (Option String)
  | Json.null => some none
  | Json.str s => (unescapeJson s).map some
  | _ => none

/-- Parsing of a node dict (accepting exactly the serializer's layout). -/
def decodeNode : Json → Option GraphNode
  | Json.obj [("id", Json.str i), ("label", Json.str l), ("type", Json.str "Movie"),
              ("released", r), ("tagline", t)] =>
    match unescapeJson i, unescapeJson l, decodeOptInt r, decodeOptStr t with
    | some i2, some l2, some r2, some t2 => some (GraphNode.movie i2 l2 r2 t2)
    | _, _, _, _ => none
  | Json.obj [("id", Json.str i), ("label", Json.str l), ("type", Json.str "Person"),
              ("role", Json.str ro)] =>
    match unescapeJson i, unescapeJson l, unescapeJson ro with
    | some i2, some l2, some ro2 => some (GraphNode.person i2 l2 ro2)
    | _, _, _ => none
  | _ => none

/-- Parsing of a link dict. -/
def decodeLink : Json → Option GraphLink
  | Json.obj [("source", Json.str s), ("target", Json.str t), ("type", Json.str ty)] =>
    match unescapeJson s, unescapeJson t, unescapeJson ty with
    | some s2, some t2, some ty2 => some { source := s2, target := t2, type := ty2 }
    | _, _, _ => none
  | _ => none

/-- Parsing of a homogeneous JSON array. -/
def decodeList (f : Json → Option α) : List Json → Option (List α)
  | [] => some []
  | j :: js =>
    match f j, decodeList f js with
    | some x, some xs => some (x :: xs)
    | _, _ => none

/-- Parsing of the serialized `graph_data` document. -/
def decodeGraph : Json → Option ExportGraph
  | Json.obj [("nodes", Json.arr ns), ("links", Json.arr ls)] =>
    match decodeList decodeNode ns, decodeList decodeLink ls with
    | some nodes, some links => some { nodes := nodes, links := links }
    | _, _ => none
  | _ => none

/-! ## Filesystem side of `generate_graph_json` -/

/-- The observable filesystem state: whether `exports/` exists and the content
of `exports/graph.json`. -/
structure FS where
  exportsDir : Bool
  graphJson : Option Json

/-- `generate_graph_json`: returns the success boolean and the resulting
filesystem state.  Infrastructure failure and "no record" both return
`False` without touching the filesystem; on success the directory is created
and the artifact overwritten. -/
def generate_graph_json (db : DB) (title : String) (fs : FS) : Bool × FS :=
  if db.fail then (false, fs)
  else
    match runExportQuery db title with
    | none => (false, fs)
    | some er =>
      (true, { exportsDir := true, graphJson := some (encodeGraph (buildGraph er)) })

/-- The person nodes appended by one relationship loop, given the ids already
seen: a node per first occurrence of an unseen id, in encounter order. -/
def newPersonNodesP (role : String) : List String → List Person → List GraphNode
  | _, [] => []
  | seen, p :: ps =>
    if personIdOf p ∈ seen then newPersonNodesP role seen ps
    else GraphNode.person (personIdOf p) p.name role ::
      newPersonNodesP role (seen ++ [personIdOf p]) ps

/-- Database for C2: one movie, one person holding TWO `ACTED_IN`
relationships to it (duplicate relationship records in the source data). -/
def dbC2 : DB :=
  { movies := [{ title := "M", released := none, tagline := none }],
    rels := [{ person := { pid := 1, name := "P Q" }, movieTitle := "M",
               rtype := RelType.actedIn },
             { person := { pid := 1, name := "P Q" }, movieTitle := "M",
               rtype := RelType.actedIn }],
    fail := false }

/-- Database for C3: two distinct director persons whose names `"A B"` and
`"A_B"` derive the same node id after space-to-underscore substitution. -/
def dbC3 : DB :=
  { movies := [{ title := "M", released := none, tagline := none }],
    rels := [{ person := { pid := 1, name := "A B" }, movieTitle := "M",
               rtype := RelType.directed },
             { person := { pid := 2, name := "A_B" }, movieTitle := "M",
               rtype := RelType.directed }],
    fail := false }

/-- Database for the amended C3 witness: one director, one actor, no
collisions. -/
def dbC3w : DB :=
  { movies := [{ title := "M", released := none, tagline := none }],
    rels := [{ person := { pid := 1, name := "D One" }, movieTitle := "M",
               rtype := RelType.directed },
             { person := { pid := 2, name := "A One" }, movieTitle := "M",
               rtype := RelType.actedIn }],
    fail := false }

/-- Database for C4: person 1 (`"A B"`) both directs and acts; person 2
(`"A_B"`) acts and derives the same node id as person 1. -/
def dbC4 : DB :=
  { movies := [{ title := "M", released := none, tagline := none }],
    rels := [{ person := { pid := 1, name := "A B" }, movieTitle := "M",
               rtype := RelType.directed },
             { person := { pid := 1, name := "A B" }, movieTitle := "M",
               rtype := RelType.actedIn },
             { person := { pid := 2, name := "A_B" }, movieTitle := "M",
               rtype := RelType.actedIn }],
    fail := false }

/-- Database for the amended C4 witness: person 1 both directs and acts, a
second actor with a non-colliding id. -/
def dbC4w : DB :=
  { movies := [{ title := "M", released := none, tagline := none }],
    rels := [{ person := { pid := 1, name := "P One" }, movieTitle := "M",
               rtype := RelType.directed },
             { person := { pid := 1, name := "P One" }, movieTitle := "M",
               rtype := RelType.actedIn },
             { person := { pid := 2, name := "Q Two" }, movieTitle := "M",
               rtype := RelType.actedIn }],
    fail := false }

/-! ## Helper lemmas: deduplication -/

theorem mem_dedupAux [DecidableEq α] (seen : List α) (l : List α) (a : α) :
    a ∈ dedupAux seen l ↔ a ∈ l ∧ a ∉ seen := by
  induction l generalizing seen with
  | nil => simp [dedupAux]
  | cons x xs ih =>
    by_cases hx : x ∈ seen
    · simp only [dedupAux, if_pos hx, ih, List.mem_cons]
      constructor
      · rintro ⟨h1, h2⟩; exact ⟨Or.inr h1, h2⟩
      · rintro ⟨h1 | h1, h2⟩
        · subst h1; exact absurd hx h2
        · exact ⟨h1, h2⟩
    · simp only [dedupAux, if_neg hx, List.mem_cons, ih, List.mem_append,
        List.mem_singleton]
      constructor
      · rintro (rfl | ⟨h1, h2⟩)
        · exact ⟨Or.inl rfl, hx⟩
        · refine ⟨Or.inr h1, fun hs => h2 (Or.inl hs)⟩
      · rintro ⟨rfl | h1, h2⟩
        · exact Or.inl rfl
        · by_cases hax : a = x
          · exact Or.inl hax
          · exact Or.inr ⟨h1, by simp [hax, h2]⟩

theorem nodup_dedupAux [DecidableEq α] (seen : List α) (l : List α) :
    (dedupAux seen l).Nodup := by
  induction l generalizing seen with
  | nil => simp [dedupAux]
  | cons x xs ih =>
    by_cases hx : x ∈ seen
    · simpa [dedupAux, if_pos hx] using ih seen
    · simp only [dedupAux, if_neg hx, List.nodup_cons]
      refine ⟨fun hmem => ?_, ih _⟩
      rcases (mem_dedupAux _ _ _).1 hmem with ⟨_, hns⟩
      exact hns (by simp)

theorem mem_dedupFirst [DecidableEq α] (l : List α) (a : α) :
    a ∈ dedupFirst l ↔ a ∈ l := by
  simp [dedupFirst, mem_dedupAux]

theorem nodup_dedupFirst [DecidableEq α] (l : List α) : (dedupFirst l).Nodup :=
  nodup_dedupAux [] l

/-! ## Helper lemmas: `strip` idempotence -/

theorem dropWhile_dropWhile (p : α → Bool) (l : List α) :
    (l.dropWhile p).dropWhile p = l.dropWhile p := by
  induction l with
  | nil => simp
  | cons x xs ih =>
    cases hx : p x with
    | true => rw [List.dropWhile_cons_of_pos hx]; exact ih
    | false =>
      rw [List.dropWhile_cons_of_neg (by simp [hx]), List.dropWhile_cons_of_neg (by simp [hx])]

theorem dropWhile_is_tail (p : α → Bool) (l : List α) :
    ∃ u, u ++ l.dropWhile p = l := by
  induction l with
  | nil => exact ⟨[], rfl⟩
  | cons x xs ih =>
    by_cases hx : p x
    · obtain ⟨u, hu⟩ := ih
      exact ⟨x :: u, by simp [List.dropWhile_cons, hx, hu]⟩
    · exact ⟨[], by simp [List.dropWhile_cons, hx]⟩

theorem pyStripList_idem (l : List Char) : pyStripList (pyStripList l) = pyStripList l := by
  set p := pyIsSpace with hp
  set a := l.dropWhile p with ha
  set b := a.reverse.dropWhile p with hb
  have hres : pyStripList l = b.reverse := by
    simp [pyStripList, ← ha, ← hb]
  have hfix : b.reverse.dropWhile p = b.reverse := by
    obtain ⟨u, hu⟩ := dropWhile_is_tail p a.reverse
    have hpref : b.reverse ++ u.reverse = a := by
      have := congrArg List.reverse hu
      simpa [List.reverse_append] using this
    cases hbr : b.reverse with
    | nil => simp
    | cons r rs =>
      have hahead : a = r :: (rs ++ u.reverse) := by
        rw [← hpref, hbr]; simp
      have hpr : p r = false := by
        have hh := List.head?_dropWhile_not p l
        rw [← ha] at hh
        rw [hahead] at hh
        simpa using hh
      simp [List.dropWhile_cons, hpr]
  rw [hres]
  show (((b.reverse.dropWhile p).reverse).dropWhile p).reverse = b.reverse
  rw [hfix]
  rw [List.reverse_reverse]
  rw [hb, dropWhile_dropWhile]

theorem pyStrip_idem (s : String) : pyStrip (pyStrip s) = pyStrip s := by
  simp only [pyStrip]
  exact congrArg String.mk (pyStripList_idem s.data)

theorem pyStrip_empty : pyStrip "" = "" := rfl

/-! ## Helper lemmas: node ids -/

theorem personId_ne_movieId (s t : String) : "person_" ++ s ≠ "movie_" ++ t := by
  intro h
  have hd := congrArg String.data h
  simp only [String.data_append] at hd
  simp at hd

theorem personIdOf_ne_movieId (p : Person) (t : String) :
    personIdOf p ≠ "movie_" ++ t := personId_ne_movieId _ t

/-! ## Helper lemmas: characterizing the build loops -/

/-- One relationship loop, fully characterized: nodes and ids get the new
person nodes appended, links get one link per non-null entry appended. -/
theorem foldl_processRel (movie_id role rtype : String) (es : List RelEntry)
    (st : ExportState) :
    es.foldl (processRel movie_id role rtype) st =
      { nodes := st.nodes ++
          newPersonNodesP role st.node_ids (es.filterMap (fun e => e.person)),
        node_ids := st.node_ids ++
          (newPersonNodesP role st.node_ids (es.filterMap (fun e => e.person))).map
            GraphNode.nodeId,
        links := st.links ++ (es.filterMap (fun e => e.person)).map
          (fun p => { source := personIdOf p, target := movie_id, type := rtype }) } := by
  induction es generalizing st with
  | nil => simp [newPersonNodesP]
  | cons e es ih =>
    cases he : e.person with
    | none =>
      rw [List.foldl_cons]
      have hstep : processRel movie_id role rtype st e = st := by
        simp [processRel, he]
      rw [hstep, ih]
      simp [List.filterMap_cons, he]
    | some p =>
      rw [List.foldl_cons]
      by_cases hmem : personIdOf p ∈ st.node_ids
      · have hstep : processRel movie_id role rtype st e =
            { nodes := st.nodes, node_ids := st.node_ids,
              links := st.links ++ [{ source := personIdOf p, target := movie_id,
                                      type := rtype }] } := by
          simp [processRel, he, if_pos hmem]
        rw [hstep, ih]
        simp [List.filterMap_cons, he, newPersonNodesP, if_pos hmem]
      · have hstep : processRel movie_id role rtype st e =
            { nodes := st.nodes ++ [GraphNode.person (personIdOf p) p.name role],
              node_ids := st.node_ids ++ [personIdOf p],
              links := st.links ++ [{ source := personIdOf p, target := movie_id,
                                      type := rtype }] } := by
          simp [processRel, he, if_neg hmem]
        rw [hstep, ih]
        simp [List.filterMap_cons, he, newPersonNodesP, if_neg hmem, GraphNode.nodeId]

/-- Every id produced by the loop was unseen when the loop started. -/
theorem newP_id_not_seen (role : String) (ps : List Person) (seen : List String)
    (i : String) (hi : i ∈ (newPersonNodesP role seen ps).map GraphNode.nodeId) :
    i ∉ seen := by
  induction ps generalizing seen with
  | nil => simp [newPersonNodesP] at hi
  | cons p ps ih =>
    by_cases hmem : personIdOf p ∈ seen
    · exact ih seen (by simpa [newPersonNodesP, if_pos hmem] using hi)
    · rw [newPersonNodesP, if_neg hmem] at hi
      simp only [List.map_cons, GraphNode.nodeId, List.mem_cons] at hi
      rcases hi with rfl | hi
      · exact hmem
      · intro hx
        exact ih _ hi (by simp [hx])

/-- The ids produced by one loop are pairwise distinct. -/
theorem newP_ids_nodup (role : String) (ps : List Person) (seen : List String) :
    ((newPersonNodesP role seen ps).map GraphNode.nodeId).Nodup := by
  induction ps generalizing seen with
  | nil => simp [newPersonNodesP]
  | cons p ps ih =>
    by_cases hmem : personIdOf p ∈ seen
    · simpa [newPersonNodesP, if_pos hmem] using ih seen
    · rw [newPersonNodesP, if_neg hmem]
      simp only [List.map_cons, GraphNode.nodeId, List.nodup_cons]
      refine ⟨fun hin => ?_, ih _⟩
      exact newP_id_not_seen role ps _ _ hin (by simp)

/-- Every node produced by one loop comes from a person of the input list,
with the loop's role and the derived id. -/
theorem mem_newP (role : String) (ps : List Person) (seen : List String)
    (n : GraphNode) (hn : n ∈ newPersonNodesP role seen ps) :
    ∃ p ∈ ps, n = GraphNode.person (personIdOf p) p.name role := by
  induction ps generalizing seen with
  | nil => simp [newPersonNodesP] at hn
  | cons p ps ih =>
    by_cases hmem : personIdOf p ∈ seen
    · rw [newPersonNodesP, if_pos hmem] at hn
      obtain ⟨q, hq, hqe⟩ := ih seen hn
      exact ⟨q, List.mem_cons_of_mem _ hq, hqe⟩
    · rw [newPersonNodesP, if_neg hmem] at hn
      rcases List.mem_cons.1 hn with rfl | hn
      · exact ⟨p, List.mem_cons_self _ _, rfl⟩
      · obtain ⟨q, hq, hqe⟩ := ih _ hn
        exact ⟨q, List.mem_cons_of_mem _ hq, hqe⟩

/-- Each person of the input ends up (by id) either among the previously seen
ids or among the loop's new ids. -/
theorem personId_mem_after (role : String) (ps : List Person) (seen : List String)
    (p : Person) (hp : p ∈ ps) :
    personIdOf p ∈ seen ++ (newPersonNodesP role seen ps).map GraphNode.nodeId := by
  induction ps generalizing seen with
  | nil => simp at hp
  | cons q ps ih =>
    by_cases hmem : personIdOf q ∈ seen
    · rw [newPersonNodesP, if_pos hmem]
      rcases List.mem_cons.1 hp with rfl | hp
      · exact List.mem_append_left _ hmem
      · exact ih seen hp
    · rw [newPersonNodesP, if_neg hmem]
      rcases List.mem_cons.1 hp with rfl | hp
      · simp [GraphNode.nodeId]
      · have := ih (seen ++ [personIdOf q]) hp
        simp only [List.mem_append, List.mem_singleton, List.map_cons,
          GraphNode.nodeId, List.mem_cons] at this ⊢
        tauto

/-- When the ids of the input persons are pairwise distinct and all unseen,
the loop adds exactly one node per person. -/
theorem newP_length (role : String) (ps : List Person) (seen : List String)
    (hnd : (ps.map personIdOf).Nodup) (hdisj : ∀ p ∈ ps, personIdOf p ∉ seen) :
    (newPersonNodesP role seen ps).length = ps.length := by
  induction ps generalizing seen with
  | nil => simp [newPersonNodesP]
  | cons p ps ih =>
    have hmem : personIdOf p ∉ seen := hdisj p (List.mem_cons_self _ _)
    rw [newPersonNodesP, if_neg hmem]
    simp only [List.map_cons, List.nodup_cons] at hnd
    simp only [List.length_cons]
    rw [ih (seen ++ [personIdOf p]) hnd.2]
    intro q hq
    simp only [List.mem_append, List.mem_singleton]
    rintro (h | h)
    · exact hdisj q (List.mem_cons_of_mem _ hq) h
    · exact hnd.1 (h ▸ List.mem_map_of_mem personIdOf hq)

/-- When `p` is in the list, its id is unseen and no other list member shares
its id, the loop creates exactly the node `person (personIdOf p) p.name role`. -/
theorem newP_mem_person (role : String) (ps : List Person) (seen : List String)
    (p : Person) (hp : p ∈ ps) (hseen : personIdOf p ∉ seen)
    (huniq : ∀ q ∈ ps, personIdOf q = personIdOf p → q = p) :
    GraphNode.person (personIdOf p) p.name role ∈ newPersonNodesP role seen ps := by
  induction ps generalizing seen with
  | nil => simp at hp
  | cons q ps ih =>
    by_cases hmem : personIdOf q ∈ seen
    · rw [newPersonNodesP, if_pos hmem]
      have hqp : q ≠ p := fun h => hseen (h ▸ hmem)
      have hp2 : p ∈ ps := by
        rcases List.mem_cons.1 hp with rfl | h
        · exact absurd rfl hqp
        · exact h
      exact ih seen hp2 hseen fun r hr => huniq r (List.mem_cons_of_mem _ hr)
    · rw [newPersonNodesP, if_neg hmem]
      by_cases hqid : personIdOf q = personIdOf p
      · have : q = p := huniq q (List.mem_cons_self _ _) hqid
        subst this
        rw [hqid]
        exact List.mem_cons_self _ _
      · have hp2 : p ∈ ps := by
          rcases List.mem_cons.1 hp with rfl | h
          · exact absurd rfl hqid
          · exact h
        refine List.mem_cons_of_mem _ ?_
        refine ih (seen ++ [personIdOf q]) hp2 ?_ fun r hr => huniq r (List.mem_cons_of_mem _ hr)
        simp only [List.mem_append, List.mem_singleton]
        rintro (h | h)
        · exact hseen h
        · exact hqid h.symm

/-- The non-null persons of a collected relationship list are exactly the
deduplicated persons. -/
theorem filterMap_collectDistinctEntries (rel : String) (ps : List Person) :
    (collectDistinctEntries rel ps).filterMap (fun e => e.person) = dedupFirst ps := by
  unfold collectDistinctEntries
  cases h : dedupFirst ps with
  | nil => simp
  | cons q qs =>
    simp [List.filterMap_map, Function.comp_def, List.filterMap_some]

/-- `buildGraph`, fully characterized: the movie node followed by the new
director nodes and the new actor nodes, and one link per deduplicated
(person, relationship-type) pair. -/
theorem buildGraph_eq (er : ExportRecord) :
    buildGraph er =
      { nodes := GraphNode.movie ("movie_" ++ pyUnderscore er.m.title) er.m.title
            er.m.released er.m.tagline ::
          (newPersonNodesP "Director" ["movie_" ++ pyUnderscore er.m.title]
              (er.director_rels.filterMap (fun e => e.person)) ++
            newPersonNodesP "Actor"
              (["movie_" ++ pyUnderscore er.m.title] ++
                (newPersonNodesP "Director" ["movie_" ++ pyUnderscore er.m.title]
                    (er.director_rels.filterMap (fun e => e.person))).map
                  GraphNode.nodeId)
              (er.actor_rels.filterMap (fun e => e.person))),
        links := (er.director_rels.filterMap (fun e => e.person)).map
            (fun p => { source := personIdOf p,
                        target := "movie_" ++ pyUnderscore er.m.title,
                        type := "DIRECTED" }) ++
          (er.actor_rels.filterMap (fun e => e.person)).map
            (fun p => { source := personIdOf p,
                        target := "movie_" ++ pyUnderscore er.m.title,
                        type := "ACTED_IN" }) } := by
  simp only [buildGraph]
  rw [foldl_processRel, foldl_processRel]
  simp

/-- `generateGraph` on a live connection and an existing movie. -/
theorem generateGraph_eq (db : DB) (title : String) (m : Movie)
    (hf : db.fail = false) (hm : findMovie db title = some m) :
    generateGraph db title =
      some (buildGraph
        { m := m,
          director_rels := collectDistinctEntries "DIRECTED" (dbDirectors db title),
          actor_rels := collectDistinctEntries "ACTED_IN" (dbActors db title) }) := by
  simp [generateGraph, hf, runExportQuery, hm]

/-- Every id produced by a loop is the derived id of an input person. -/
theorem mem_newP_ids (role : String) (ps : List Person) (seen : List String)
    (i : String) (hi : i ∈ (newPersonNodesP role seen ps).map GraphNode.nodeId) :
    ∃ p ∈ ps, i = personIdOf p := by
  obtain ⟨n, hn, hni⟩ := List.mem_map.1 hi
  obtain ⟨p, hp, rfl⟩ := mem_newP role ps seen n hn
  exact ⟨p, hp, hni.symm⟩

/-- Well-formedness of every produced graph: no duplicate node ids, and every
link endpoint is the id of a node of the graph.  (Shared workhorse.) -/
theorem generateGraph_wellformed (db : DB) (title : String) (g : ExportGraph)
    (hg : generateGraph db title = some g) :
    (g.nodes.map GraphNode.nodeId).Nodup ∧
      ∀ l ∈ g.links, l.source ∈ g.nodes.map GraphNode.nodeId ∧
        l.target ∈ g.nodes.map GraphNode.nodeId := by
  by_cases hf : db.fail
  · simp [generateGraph, hf] at hg
  · rw [generateGraph, if_neg hf] at hg
    cases hq : runExportQuery db title with
    | none => rw [hq] at hg; simp at hg
    | some er =>
      rw [hq] at hg
      simp only [Option.map_some', Option.some.injEq] at hg
      subst hg
      rw [buildGraph_eq]
      set mid := "movie_" ++ pyUnderscore er.m.title with hmid
      set dp := er.director_rels.filterMap (fun e => e.person) with hdp
      set ap := er.actor_rels.filterMap (fun e => e.person) with hap
      set dn := newPersonNodesP "Director" [mid] dp with hdn
      set an := newPersonNodesP "Actor" ([mid] ++ dn.map GraphNode.nodeId) ap with han
      have hids : (GraphNode.movie mid er.m.title er.m.released er.m.tagline ::
          (dn ++ an)).map GraphNode.nodeId =
          mid :: (dn.map GraphNode.nodeId ++ an.map GraphNode.nodeId) := by
        simp [GraphNode.nodeId]
      have hmid_dn : mid ∉ dn.map GraphNode.nodeId := by
        intro h
        obtain ⟨p, _, hpe⟩ := mem_newP_ids _ _ _ _ h
        exact personIdOf_ne_movieId p (pyUnderscore er.m.title) hpe.symm
      have hmid_an : mid ∉ an.map GraphNode.nodeId := by
        intro h
        obtain ⟨p, _, hpe⟩ := mem_newP_ids _ _ _ _ h
        exact personIdOf_ne_movieId p (pyUnderscore er.m.title) hpe.symm
      have hdisj : ∀ i ∈ an.map GraphNode.nodeId, i ∉ dn.map GraphNode.nodeId := by
        intro i hi hd
        have := newP_id_not_seen "Actor" ap ([mid] ++ dn.map GraphNode.nodeId) i hi
        exact this (List.mem_append_right _ hd)
      constructor
      · rw [hids, List.nodup_cons]
        refine ⟨by simp [hmid_dn, hmid_an], ?_⟩
        rw [List.nodup_append]
        exact ⟨newP_ids_nodup _ _ _, newP_ids_nodup _ _ _,
          fun i hi hai => hdisj i hai hi⟩
      · intro l hl
        rw [hids]
        simp only [List.mem_append, List.mem_map] at hl
        have hmid_mem : mid ∈ mid :: (dn.map GraphNode.nodeId ++ an.map GraphNode.nodeId) :=
          List.mem_cons_self _ _
        rcases hl with ⟨p, hp, rfl⟩ | ⟨p, hp, rfl⟩
        · refine ⟨?_, hmid_mem⟩
          have := personId_mem_after "Director" dp [mid] p hp
          simp only [List.mem_append, List.mem_singleton] at this
          simp only [List.mem_cons, List.mem_append]
          tauto
        · refine ⟨?_, hmid_mem⟩
          have := personId_mem_after "Actor" ap ([mid] ++ dn.map GraphNode.nodeId) p hp
          simp only [List.mem_append, List.mem_singleton] at this
          simp only [List.mem_cons, List.mem_append]
          tauto

/-- Counting helper: a list whose images under `f` are pairwise distinct has
exactly one element whose image equals any given attained value. -/
theorem countP_key_eq_one {α : Type _} (l : List α) (f : α → String) (a : String)
    (hnd : (l.map f).Nodup) (hmem : a ∈ l.map f) :
    l.countP (fun x => f x == a) = 1 := by
  induction l with
  | nil => simp at hmem
  | cons x xs ih =>
    simp only [List.map_cons, List.nodup_cons] at hnd
    rcases List.mem_cons.1 hmem with rfl | hmem2
    · rw [List.countP_cons_of_pos _ _ (by simp)]
      have hz : xs.countP (fun x2 => f x2 == f x) = 0 := by
        rw [List.countP_eq_zero]
        intro y hy hfy
        exact hnd.1 (by
          rw [beq_iff_eq] at hfy
          exact hfy ▸ List.mem_map_of_mem f hy)
      omega
    · have hne : (f x == a) = false := by
        rw [beq_eq_false_iff_ne]
        intro h
        exact hnd.1 (h ▸ hmem2)
      rw [List.countP_cons_of_neg _ _ (by simp [hne])]
      exact ih hnd.2 hmem2

/-- Counting helper: in a duplicate-free list, exactly one element satisfies a
predicate that singles out a member. -/
theorem countP_eq_one_of_unique {α : Type _} (l : List α) (pr : α → Bool) (a : α)
    (hnd : l.Nodup) (ha : a ∈ l) (hpa : pr a = true)
    (huniq : ∀ x ∈ l, pr x = true → x = a) :
    l.countP pr = 1 := by
  induction l with
  | nil => simp at ha
  | cons x xs ih =>
    rw [List.nodup_cons] at hnd
    rcases List.mem_cons.1 ha with rfl | ha2
    · rw [List.countP_cons_of_pos _ _ hpa]
      have hz : xs.countP pr = 0 := by
        rw [List.countP_eq_zero]
        intro y hy hpy
        exact hnd.1 ((huniq y (List.mem_cons_of_mem _ hy) hpy) ▸ hy)
      omega
    · have hx : pr x = false := by
        cases hpx : pr x with
        | false => rfl
        | true => exact absurd (huniq x (List.mem_cons_self _ _) hpx) (fun h => hnd.1 (h ▸ ha2))
      rw [List.countP_cons_of_neg _ _ (by simp [hx])]
      exact ih hnd.2 ha2 fun y hy hpy => huniq y (List.mem_cons_of_mem _ hy) hpy

/-! ## Claim C5 -/

/-- C5: every ExportGraph produced by exportGraph is well-formed: its nodes
sequence contains no two nodes with the same id, and every link's source and
target ids are ids of nodes present in the nodes sequence. -/
theorem c5_export_graph_wellformed (db : DB) (title : String) (g : ExportGraph)
    (hg : generateGraph db title = some g) :
    (g.nodes.map GraphNode.nodeId).Nodup ∧
      ∀ l ∈ g.links, l.source ∈ g.nodes.map GraphNode.nodeId ∧
        l.target ∈ g.nodes.map GraphNode.nodeId :=
  generateGraph_wellformed db title g hg

/-- Witness for C5 at a concrete database: one movie, one director, one actor. -/
theorem c5_export_graph_wellformed_witness :
    generateGraph
        { movies := [{ title := "T T", released := some 1999, tagline := some "tag" }],
          rels := [{ person := { pid := 1, name := "D X" }, movieTitle := "T T",
                     rtype := RelType.directed },
                   { person := { pid := 2, name := "A Y" }, movieTitle := "T T",
                     rtype := RelType.actedIn }],
          fail := false } "T T" =
      some { nodes := [GraphNode.movie "movie_T_T" "T T" (some 1999) (some "tag"),
                       GraphNode.person "person_D_X" "D X" "Director",
                       GraphNode.person "person_A_Y" "A Y" "Actor"],
             links := [{ source := "person_D_X", target := "movie_T_T",
                         type := "DIRECTED" },
                       { source := "person_A_Y", target := "movie_T_T",
                         type := "ACTED_IN" }] } ∧
    (([GraphNode.movie "movie_T_T" "T T" (some 1999) (some "tag"),
       GraphNode.person "person_D_X" "D X" "Director",
       GraphNode.person "person_A_Y" "A Y" "Actor"].map GraphNode.nodeId).Nodup ∧
      ∀ l ∈ [({ source := "person_D_X", target := "movie_T_T",
                type := "DIRECTED" } : GraphLink),
             { source := "person_A_Y", target := "movie_T_T", type := "ACTED_IN" }],
        l.source ∈ [GraphNode.movie "movie_T_T" "T T" (some 1999) (some "tag"),
                    GraphNode.person "person_D_X" "D X" "Director",
                    GraphNode.person "person_A_Y" "A Y" "Actor"].map GraphNode.nodeId ∧
        l.target ∈ [GraphNode.movie "movie_T_T" "T T" (some 1999) (some "tag"),
                    GraphNode.person "person_D_X" "D X" "Director",
                    GraphNode.person "person_A_Y" "A Y" "Actor"].map GraphNode.nodeId) :=
  ⟨by decide,
    c5_export_graph_wellformed
      { movies := [{ title := "T T", released := some 1999, tagline := some "tag" }],
        rels := [{ person := { pid := 1, name := "D X" }, movieTitle := "T T",
                   rtype := RelType.directed },
                 { person := { pid := 2, name := "A Y" }, movieTitle := "T T",
                   rtype := RelType.actedIn }],
        fail := false } "T T"
      { nodes := [GraphNode.movie "movie_T_T" "T T" (some 1999) (some "tag"),
                  GraphNode.person "person_D_X" "D X" "Director",
                  GraphNode.person "person_A_Y" "A Y" "Actor"],
        links := [{ source := "person_D_X", target := "movie_T_T",
                    type := "DIRECTED" },
                  { source := "person_A_Y", target := "movie_T_T",
                    type := "ACTED_IN" }] } (by decide)⟩

/-! ## Claim C6 -/

/-- C6: when the export-source query returns no record, exportGraph returns
the failure outcome and performs no write: the filesystem state (directory
and artifact) is unchanged. -/
theorem c6_export_notfound_no_write (db : DB) (title : String) (fs : FS)
    (hf : db.fail = false) (hq : runExportQuery db title = none) :
    generate_graph_json db title fs = (false, fs) := by
  simp [generate_graph_json, hf, hq]

/-- Witness for C6: empty database, nonexistent title, pristine filesystem. -/
theorem c6_export_notfound_no_write_witness :
    ({ movies := [], rels := [], fail := false } : DB).fail = false ∧
    runExportQuery { movies := [], rels := [], fail := false } "Nope" = none ∧
    generate_graph_json { movies := [], rels := [], fail := false } "Nope"
      { exportsDir := false, graphJson := none } =
      (false, { exportsDir := false, graphJson := none }) :=
  ⟨rfl, rfl, c6_export_notfound_no_write _ "Nope" _ rfl rfl⟩

/-! ## Claim C7 -/

/-- C7: for every search term that is empty or consists only of whitespace,
searchMovies returns the empty sequence and issues zero queries to the data
store. -/
theorem c7_blank_search_no_query (db : DB) (term : String)
    (h : pyStrip term = "") : search_movies db term = ([], 0) := by
  unfold search_movies
  rw [if_pos (Or.inr h)]

/-- Witness for C7 on a whitespace-only term. -/
theorem c7_blank_search_no_query_witness :
    pyStrip "   " = "" ∧
    search_movies { movies := [], rels := [], fail := false } "   " = ([], 0) :=
  ⟨by decide, c7_blank_search_no_query _ "   " (by decide)⟩

/-! ## Claim C8 -/

/-- C8: for every existing movie, getMovieDetails returns a record, and when
the movie has zero director (resp. actor) relationships the directors (resp.
actors) sequence is empty — the null placeholder of the outer join is
filtered out, never surfaced. -/
theorem c8_no_directors_empty_list (db : DB) (title : String) (m : Movie)
    (hf : db.fail = false) (hm : findMovie db title = some m) :
    ∃ d, get_movie_details db title = some d ∧
      (dbDirectors db title = [] → d.directors = []) ∧
      (dbActors db title = [] → d.actors = []) := by
  refine ⟨{ title := m.title, released := m.released, tagline := m.tagline,
            directors := (collectDistinctNames (dbDirectors db title)).filterMap id,
            actors := (collectDistinctNames (dbActors db title)).filterMap id },
    ?_, ?_, ?_⟩
  · simp [get_movie_details, hf, hm]
  · intro hd; rw [hd]; rfl
  · intro ha; rw [ha]; rfl

/-- Witness for C8: a movie with no relationships at all. -/
theorem c8_no_directors_empty_list_witness :
    ({ movies := [{ title := "Solo", released := some 2020, tagline := none }],
       rels := [], fail := false } : DB).fail = false ∧
    findMovie { movies := [{ title := "Solo", released := some 2020, tagline := none }],
                rels := [], fail := false } "Solo" =
      some { title := "Solo", released := some 2020, tagline := none } ∧
    ∃ d, get_movie_details
        { movies := [{ title := "Solo", released := some 2020, tagline := none }],
          rels := [], fail := false } "Solo" = some d ∧
      (dbDirectors { movies := [{ title := "Solo", released := some 2020, tagline := none }],
                     rels := [], fail := false } "Solo" = [] → d.directors = []) ∧
      (dbActors { movies := [{ title := "Solo", released := some 2020, tagline := none }],
                  rels := [], fail := false } "Solo" = [] → d.actors = []) :=
  ⟨rfl, rfl, c8_no_directors_empty_list _ "Solo" _ rfl rfl⟩

/-! ## Claim C10 -/

/-- C10: for every search term whose trimmed form is non-empty, searchMovies
behaves exactly as searchMovies on the trimmed term: surrounding whitespace
never participates in the substring match. -/
theorem c10_search_trims_term (db : DB) (term : String)
    (h : pyStrip term ≠ "") :
    search_movies db term = search_movies db (pyStrip term) := by
  have hterm : ¬ term = "" := by
    intro he; exact h (by rw [he]; rfl)
  have hidem := pyStrip_idem term
  have h1 : ¬ (term = "" ∨ pyStrip term = "") := by simp [hterm, h]
  have h2 : ¬ (pyStrip term = "" ∨ pyStrip (pyStrip term) = "") := by simp [h, hidem]
  unfold search_movies
  rw [if_neg h1, if_neg h2, hidem]

/-- Witness for C10 on a term with surrounding whitespace. -/
theorem c10_search_trims_term_witness :
    pyStrip "  Matrix  " ≠ "" ∧
    search_movies
        { movies := [{ title := "The Matrix", released := some 1999, tagline := none }],
          rels := [], fail := false } "  Matrix  " =
      search_movies
        { movies := [{ title := "The Matrix", released := some 1999, tagline := none }],
          rels := [], fail := false } (pyStrip "  Matrix  ") :=
  ⟨by decide, c10_search_trims_term _ "  Matrix  " (by decide)⟩

/-! ## Claim C1 -/

/-- C1 counterexample: with an infrastructure failure (`fail := true`), every
operation returns exactly the "not found" value (empty list, absent record,
failure without artifact), and is moreover equal to what an empty, healthy
database returns — the two categories are not distinguishable by the caller. -/
theorem c1_counterexample :
    (search_movies { movies := [], rels := [], fail := true } "Matrix").1 = [] ∧
    get_movie_details { movies := [], rels := [], fail := true } "The Matrix" = none ∧
    generate_graph_json { movies := [], rels := [], fail := true } "The Matrix"
      { exportsDir := false, graphJson := none } =
      (false, { exportsDir := false, graphJson := none }) ∧
    search_movies { movies := [], rels := [], fail := true } "Matrix" =
      search_movies { movies := [], rels := [], fail := false } "Matrix" ∧
    get_movie_details { movies := [], rels := [], fail := true } "The Matrix" =
      get_movie_details { movies := [], rels := [], fail := false } "The Matrix" ∧
    generate_graph_json { movies := [], rels := [], fail := true } "The Matrix"
      { exportsDir := false, graphJson := none } =
      generate_graph_json { movies := [], rels := [], fail := false } "The Matrix"
        { exportsDir := false, graphJson := none } :=
  ⟨rfl, rfl, rfl, rfl, rfl, rfl⟩

/-- C1 amended: infrastructure failures are caught inside each operation and
mapped to the very values that also encode domain absence (empty list, absent
record, failure without write); the caller cannot distinguish the two
categories from the returned results. -/
theorem c1_amended_failure_collapsed (db : DB) (term title : String) (fs : FS)
    (h : db.fail = true) :
    (search_movies db term).1 = [] ∧ get_movie_details db title = none ∧
      generate_graph_json db title fs = (false, fs) := by
  refine ⟨?_, ?_, ?_⟩
  · unfold search_movies
    by_cases hg : term = "" ∨ pyStrip term = ""
    · rw [if_pos hg]
    · rw [if_neg hg, if_pos h]
  · simp [get_movie_details, h]
  · simp [generate_graph_json, h]

/-- Witness for the amended C1 at a concrete failing connection. -/
theorem c1_amended_failure_collapsed_witness :
    ({ movies := [], rels := [], fail := true } : DB).fail = true ∧
    ((search_movies { movies := [], rels := [], fail := true } "x").1 = [] ∧
     get_movie_details { movies := [], rels := [], fail := true } "y" = none ∧
     generate_graph_json { movies := [], rels := [], fail := true } "y"
       { exportsDir := false, graphJson := none } =
       (false, { exportsDir := false, graphJson := none })) :=
  ⟨rfl, c1_amended_failure_collapsed { movies := [], rels := [], fail := true } "x" "y"
    { exportsDir := false, graphJson := none } rfl⟩

/-! ## Claim C2 -/

/-- C2 counterexample: the source data holds two `ACTED_IN` relationships
between the same person and the same movie, yet the produced graph contains a
single `ACTED_IN` link — the query's `collect(DISTINCT …)` collapses the
duplicate before the link loop runs. -/
theorem c2_counterexample :
    dbC2.rels.countP
      (fun r => r.person == ({ pid := 1, name := "P Q" } : Person) &&
        r.rtype == RelType.actedIn) = 2 ∧
    generateGraph dbC2 "M" =
      some { nodes := [GraphNode.movie "movie_M" "M" none none,
                       GraphNode.person "person_P_Q" "P Q" "Actor"],
             links := [{ source := "person_P_Q", target := "movie_M",
                         type := "ACTED_IN" }] } := by
  decide

/-- C2 amended: the exporter appends exactly one link per entry of the
collected relationship lists (no deduplication of its own), but the
export-source query collects with `DISTINCT` over (person, role), so the link
sequence is one `DIRECTED` link per distinct director followed by one
`ACTED_IN` link per distinct actor; duplicate relationship records collapse. -/
theorem c2_amended_one_link_per_distinct (db : DB) (title : String) (m : Movie)
    (hf : db.fail = false) (hm : findMovie db title = some m) :
    ∃ g, generateGraph db title = some g ∧
      g.links =
        (dedupFirst (dbDirectors db title)).map
          (fun p => { source := personIdOf p,
                      target := "movie_" ++ pyUnderscore m.title,
                      type := "DIRECTED" }) ++
        (dedupFirst (dbActors db title)).map
          (fun p => { source := personIdOf p,
                      target := "movie_" ++ pyUnderscore m.title,
                      type := "ACTED_IN" }) := by
  refine ⟨_, generateGraph_eq db title m hf hm, ?_⟩
  rw [buildGraph_eq]
  simp only [filterMap_collectDistinctEntries]

/-- Witness for the amended C2 on `dbC2` (the duplicate-relationship data). -/
theorem c2_amended_one_link_per_distinct_witness :
    dbC2.fail = false ∧
    findMovie dbC2 "M" = some { title := "M", released := none, tagline := none } ∧
    ∃ g, generateGraph dbC2 "M" = some g ∧
      g.links =
        (dedupFirst (dbDirectors dbC2 "M")).map
          (fun p => { source := personIdOf p,
                      target := "movie_" ++ pyUnderscore "M",
                      type := "DIRECTED" }) ++
        (dedupFirst (dbActors dbC2 "M")).map
          (fun p => { source := personIdOf p,
                      target := "movie_" ++ pyUnderscore "M",
                      type := "ACTED_IN" }) :=
  ⟨rfl, rfl, c2_amended_one_link_per_distinct dbC2 "M"
    { title := "M", released := none, tagline := none } rfl rfl⟩

/-! ## Claim C3 -/

/-- C3 counterexample: a movie with N = 2 distinct directors and M = 0 actors
(no person both directs and acts) whose export has only 2 nodes instead of
1 + N + M = 3 — the two director names collide after id derivation. -/
theorem c3_counterexample :
    (dedupFirst (dbDirectors dbC3 "M")).length = 2 ∧
    (dedupFirst (dbActors dbC3 "M")).length = 0 ∧
    (generateGraph dbC3 "M").map (fun g => (g.nodes.length, g.links.length)) =
      some (2, 2) := by
  decide

/-- C3 amended: the node and link counts 1 + N + M and N + M hold provided
the derived node ids of the N distinct directors are pairwise distinct, those
of the M distinct actors are pairwise distinct, and no director id equals an
actor id (which also rules out a person directing and acting). -/
theorem c3_amended_counts (db : DB) (title : String) (m : Movie)
    (hf : db.fail = false) (hm : findMovie db title = some m)
    (hdn : ((dedupFirst (dbDirectors db title)).map personIdOf).Nodup)
    (han : ((dedupFirst (dbActors db title)).map personIdOf).Nodup)
    (hcross : ∀ i ∈ (dedupFirst (dbDirectors db title)).map personIdOf,
        i ∉ (dedupFirst (dbActors db title)).map personIdOf) :
    ∃ g, generateGraph db title = some g ∧
      g.nodes.length =
        1 + (dedupFirst (dbDirectors db title)).length +
          (dedupFirst (dbActors db title)).length ∧
      g.links.length =
        (dedupFirst (dbDirectors db title)).length +
          (dedupFirst (dbActors db title)).length := by
  refine ⟨_, generateGraph_eq db title m hf hm, ?_, ?_⟩
  all_goals rw [buildGraph_eq]
  all_goals simp only [filterMap_collectDistinctEntries]
  · set mid := "movie_" ++ pyUnderscore m.title with hmid
    set dp := dedupFirst (dbDirectors db title) with hdp
    set ap := dedupFirst (dbActors db title) with hap
    set dn := newPersonNodesP "Director" [mid] dp with hdnn
    have hdlen : dn.length = dp.length := by
      refine newP_length "Director" dp [mid] hdn ?_
      intro p _
      simp only [List.mem_singleton]
      exact personIdOf_ne_movieId p (pyUnderscore m.title)
    have halen :
        (newPersonNodesP "Actor" ([mid] ++ dn.map GraphNode.nodeId) ap).length =
          ap.length := by
      refine newP_length "Actor" ap _ han ?_
      intro p hp
      simp only [List.mem_append, List.mem_singleton]
      rintro (h | h)
      · exact personIdOf_ne_movieId p (pyUnderscore m.title) h
      · obtain ⟨q, hq, hqe⟩ := mem_newP_ids _ _ _ _ h
        refine hcross (personIdOf p) ?_ (List.mem_map_of_mem personIdOf hp)
        exact hqe ▸ List.mem_map_of_mem personIdOf hq
    simp only [List.length_cons, List.length_append, hdlen, halen]
    omega
  · simp only [List.length_append, List.length_map]

/-- Witness for the amended C3 on `dbC3w` (N = 1, M = 1): 3 nodes, 2 links. -/
theorem c3_amended_counts_witness :
    dbC3w.fail = false ∧
    findMovie dbC3w "M" = some { title := "M", released := none, tagline := none } ∧
    ((dedupFirst (dbDirectors dbC3w "M")).map personIdOf).Nodup ∧
    ((dedupFirst (dbActors dbC3w "M")).map personIdOf).Nodup ∧
    (∀ i ∈ (dedupFirst (dbDirectors dbC3w "M")).map personIdOf,
        i ∉ (dedupFirst (dbActors dbC3w "M")).map personIdOf) ∧
    ∃ g, generateGraph dbC3w "M" = some g ∧
      g.nodes.length =
        1 + (dedupFirst (dbDirectors dbC3w "M")).length +
          (dedupFirst (dbActors dbC3w "M")).length ∧
      g.links.length =
        (dedupFirst (dbDirectors dbC3w "M")).length +
          (dedupFirst (dbActors dbC3w "M")).length :=
  ⟨rfl, rfl, by decide, by decide, by decide,
    c3_amended_counts dbC3w "M" { title := "M", released := none, tagline := none }
      rfl rfl (by decide) (by decide) (by decide)⟩

/-! ## Claim C4 -/

/-- Counting helper: the link list built from a person list contains exactly
one link with a given source id and matching type when exactly one person of
the list derives that id. -/
theorem countP_links_same (pid mid ty : String) (ps : List Person) (p : Person)
    (hnd : ps.Nodup) (hp : p ∈ ps) (hpid : personIdOf p = pid)
    (huniq : ∀ q ∈ ps, personIdOf q = pid → q = p) :
    (ps.map (fun q => ({ source := personIdOf q, target := mid,
                         type := ty } : GraphLink))).countP
      (fun l => l.source == pid && l.type == ty) = 1 := by
  rw [List.countP_map]
  refine countP_eq_one_of_unique ps _ p hnd hp ?_ ?_
  · simp [Function.comp, hpid]
  · intro q hq hpq
    simp only [Function.comp_apply, Bool.and_eq_true, beq_iff_eq] at hpq
    exact huniq q hq hpq.1

/-- Counting helper: links carrying one relationship type never match a
predicate requiring a different type. -/
theorem countP_links_other (pid mid ty ty2 : String) (ps : List Person)
    (hne : ty ≠ ty2) :
    (ps.map (fun q => ({ source := personIdOf q, target := mid,
                         type := ty } : GraphLink))).countP
      (fun l => l.source == pid && l.type == ty2) = 0 := by
  rw [List.countP_map, List.countP_eq_zero]
  intro q hq
  simp only [Function.comp_apply, Bool.and_eq_true, beq_iff_eq]
  rintro ⟨-, habs⟩
  exact hne habs

/-- C4 counterexample: person `"A B"` both directs and acts, yet the produced
graph carries 3 links on that person's node id — 1 DIRECTED and 2 ACTED_IN —
because the distinct person `"A_B"` collides onto the same id; the claimed
"two links: one DIRECTED and one ACTED_IN" fails. -/
theorem c4_counterexample :
    ({ pid := 1, name := "A B" } : Person) ∈ dbDirectors dbC4 "M" ∧
    ({ pid := 1, name := "A B" } : Person) ∈ dbActors dbC4 "M" ∧
    (generateGraph dbC4 "M").map
      (fun g =>
        (g.links.countP (fun l => l.source == "person_A_B"),
         g.links.countP (fun l => l.source == "person_A_B" &&
           l.type == "ACTED_IN"))) = some (3, 2) := by
  decide

/-- C4 amended: provided no other person of the movie's relationship record
derives the same node id, a person who both directs and acts yields exactly
one Person node (labelled with their name and role `"Director"`, since
directors are processed first) and exactly one `DIRECTED` and one `ACTED_IN`
link with that person's id as source. -/
theorem c4_amended_dual_role (db : DB) (title : String) (m : Movie) (p : Person)
    (hf : db.fail = false) (hm : findMovie db title = some m)
    (hd : p ∈ dbDirectors db title) (ha : p ∈ dbActors db title)
    (huniq : ∀ q ∈ dbDirectors db title ++ dbActors db title,
        personIdOf q = personIdOf p → q = p) :
    ∃ g, generateGraph db title = some g ∧
      GraphNode.person (personIdOf p) p.name "Director" ∈ g.nodes ∧
      g.nodes.countP (fun n => GraphNode.nodeId n == personIdOf p) = 1 ∧
      g.links.countP
        (fun l => l.source == personIdOf p && l.type == "DIRECTED") = 1 ∧
      g.links.countP
        (fun l => l.source == personIdOf p && l.type == "ACTED_IN") = 1 := by
  have hg := generateGraph_eq db title m hf hm
  have hwf := generateGraph_wellformed db title _ hg
  have hdp : p ∈ dedupFirst (dbDirectors db title) := (mem_dedupFirst _ _).2 hd
  have hap : p ∈ dedupFirst (dbActors db title) := (mem_dedupFirst _ _).2 ha
  have huniqd : ∀ q ∈ dedupFirst (dbDirectors db title),
      personIdOf q = personIdOf p → q = p := fun q hq he =>
    huniq q (List.mem_append_left _ ((mem_dedupFirst _ _).1 hq)) he
  have huniqa : ∀ q ∈ dedupFirst (dbActors db title),
      personIdOf q = personIdOf p → q = p := fun q hq he =>
    huniq q (List.mem_append_right _ ((mem_dedupFirst _ _).1 hq)) he
  have hseen : personIdOf p ∉ ["movie_" ++ pyUnderscore m.title] := by
    simp only [List.mem_singleton]
    exact personIdOf_ne_movieId p _
  have hnode : GraphNode.person (personIdOf p) p.name "Director" ∈
      (buildGraph
        { m := m,
          director_rels := collectDistinctEntries "DIRECTED" (dbDirectors db title),
          actor_rels := collectDistinctEntries "ACTED_IN" (dbActors db title) }).nodes := by
    rw [buildGraph_eq]
    simp only [filterMap_collectDistinctEntries]
    refine List.mem_cons_of_mem _ (List.mem_append_left _ ?_)
    exact newP_mem_person "Director" _ _ p hdp hseen huniqd
  refine ⟨_, hg, hnode, ?_, ?_, ?_⟩
  · have hmem : personIdOf p ∈
        (buildGraph
          { m := m,
            director_rels := collectDistinctEntries "DIRECTED" (dbDirectors db title),
            actor_rels := collectDistinctEntries "ACTED_IN" (dbActors db title) }).nodes.map
          GraphNode.nodeId := by
      have := List.mem_map_of_mem GraphNode.nodeId hnode
      simpa [GraphNode.nodeId] using this
    exact countP_key_eq_one _ GraphNode.nodeId _ hwf.1 hmem
  · rw [buildGraph_eq]
    simp only [filterMap_collectDistinctEntries, List.countP_append]
    rw [countP_links_same (personIdOf p) _ "DIRECTED" _ p (nodup_dedupFirst _) hdp rfl
        huniqd,
      countP_links_other (personIdOf p) _ "ACTED_IN" "DIRECTED" _ (by decide)]
  · rw [buildGraph_eq]
    simp only [filterMap_collectDistinctEntries, List.countP_append]
    rw [countP_links_other (personIdOf p) _ "DIRECTED" "ACTED_IN" _ (by decide),
      countP_links_same (personIdOf p) _ "ACTED_IN" _ p (nodup_dedupFirst _) hap rfl
        huniqa]

/-- Witness for the amended C4 on `dbC4w`. -/
theorem c4_amended_dual_role_witness :
    dbC4w.fail = false ∧
    findMovie dbC4w "M" = some { title := "M", released := none, tagline := none } ∧
    ({ pid := 1, name := "P One" } : Person) ∈ dbDirectors dbC4w "M" ∧
    ({ pid := 1, name := "P One" } : Person) ∈ dbActors dbC4w "M" ∧
    (∀ q ∈ dbDirectors dbC4w "M" ++ dbActors dbC4w "M",
        personIdOf q = personIdOf { pid := 1, name := "P One" } →
          q = { pid := 1, name := "P One" }) ∧
    ∃ g, generateGraph dbC4w "M" = some g ∧
      GraphNode.person (personIdOf { pid := 1, name := "P One" })
        ({ pid := 1, name := "P One" } : Person).name "Director" ∈ g.nodes ∧
      g.nodes.countP
        (fun n => GraphNode.nodeId n == personIdOf { pid := 1, name := "P One" }) = 1 ∧
      g.links.countP
        (fun l => l.source == personIdOf { pid := 1, name := "P One" } &&
          l.type == "DIRECTED") = 1 ∧
      g.links.countP
        (fun l => l.source == personIdOf { pid := 1, name := "P One" } &&
          l.type == "ACTED_IN") = 1 :=
  ⟨rfl, rfl, by decide, by decide, by decide,
    c4_amended_dual_role dbC4w "M" { title := "M", released := none, tagline := none }
      { pid := 1, name := "P One" } rfl rfl (by decide) (by decide) (by decide)⟩

/-! ## Claim C9: serialization round trip -/

theorem hexVal_hexDigit : ∀ n, n < 16 → hexVal (hexDigit n) = some n := by decide

theorem unescapeList_not_backslash (c : Char) (h : ¬ c = '\\') (rest : List Char) :
    unescapeList (c :: rest) =
      match unescapeList rest with
      | some out => some (c :: out)
      | none => none := by
  rw [unescapeList.eq_def]
  simp [h]

theorem unescapeList_esc (e : Char) (rest : List Char) (he : ¬ e = 'u') :
    unescapeList ('\\' :: e :: rest) =
      match unescapeChar e, unescapeList rest with
      | some ch, some out => some (ch :: out)
      | _, _ => none := by
  rw [unescapeList.eq_def]
  simp [he]

theorem unescapeList_u (h1 h2 h3 h4 : Char) (rest : List Char) :
    unescapeList ('\\' :: 'u' :: h1 :: h2 :: h3 :: h4 :: rest) =
      match hexVal h1, hexVal h2, hexVal h3, hexVal h4, unescapeList rest with
      | some a, some b, some cc, some d, some out =>
        some (Char.ofNat (4096 * a + 256 * b + 16 * cc + d) :: out)
      | _, _, _, _, _ => none := by
  rw [unescapeList.eq_def]
  simp

theorem esc_short (e c2 : Char) (E cs : List Char) (he : ¬ e = 'u')
    (hu : unescapeChar e = some c2) (hE : unescapeList E = some cs) :
    unescapeList ('\\' :: e :: E) = some (c2 :: cs) := by
  rw [unescapeList_esc e E he, hu, hE]

theorem esc_plain (c : Char) (E cs : List Char) (hc : ¬ c = '\\')
    (hE : unescapeList E = some cs) :
    unescapeList (c :: E) = some (c :: cs) := by
  rw [unescapeList_not_backslash c hc E, hE]

theorem esc_u (c : Char) (E cs : List Char) (hE : unescapeList E = some cs)
    (hlt : c.toNat < 32) :
    unescapeList ('\\' :: 'u' :: '0' :: '0' :: hexDigit (c.toNat / 16) ::
      hexDigit (c.toNat % 16) :: E) = some (c :: cs) := by
  have hv0 : hexVal '0' = some 0 := rfl
  have hv1 : hexVal (hexDigit (c.toNat / 16)) = some (c.toNat / 16) :=
    hexVal_hexDigit _ (by omega)
  have hv2 : hexVal (hexDigit (c.toNat % 16)) = some (c.toNat % 16) :=
    hexVal_hexDigit _ (by omega)
  rw [unescapeList_u, hv0, hv1, hv2, hE]
  show some (Char.ofNat (4096 * 0 + 256 * 0 + 16 * (c.toNat / 16) + c.toNat % 16) :: cs) =
    some (c :: cs)
  rw [show 4096 * 0 + 256 * 0 + 16 * (c.toNat / 16) + c.toNat % 16 = c.toNat by omega,
    Char.ofNat_toNat]

/-- Unescaping inverts escaping on every character list. -/
theorem unescape_escapeList (l : List Char) : unescapeList (escapeList l) = some l := by
  induction l with
  | nil => rfl
  | cons c cs ih =>
    rw [escapeList]
    by_cases h1 : c = '\\'
    · subst h1; exact esc_short '\\' '\\' _ cs (by decide) rfl ih
    by_cases h2 : c = '"'
    · subst h2; exact esc_short '"' '"' _ cs (by decide) rfl ih
    by_cases h3 : c = '\x08'
    · subst h3; exact esc_short 'b' '\x08' _ cs (by decide) rfl ih
    by_cases h4 : c = '\x0c'
    · subst h4; exact esc_short 'f' '\x0c' _ cs (by decide) rfl ih
    by_cases h5 : c = '\n'
    · subst h5; exact esc_short 'n' '\n' _ cs (by decide) rfl ih
    by_cases h6 : c = '\r'
    · subst h6; exact esc_short 'r' '\r' _ cs (by decide) rfl ih
    by_cases h7 : c = '\t'
    · subst h7; exact esc_short 't' '\t' _ cs (by decide) rfl ih
    by_cases h8 : c.toNat < 32
    · have hesc : escapeChar c =
          ['\\', 'u', '0', '0', hexDigit (c.toNat / 16), hexDigit (c.toNat % 16)] := by
        simp [escapeChar, h1, h2, h3, h4, h5, h6, h7, h8]
      rw [hesc]
      exact esc_u c _ cs ih h8
    · have hesc : escapeChar c = [c] := by
        simp [escapeChar, h1, h2, h3, h4, h5, h6, h7, h8]
      rw [hesc]
      exact esc_plain c _ cs h1 ih

/-- String-level round trip, non-ASCII characters included. -/
theorem unescapeJson_escapeJson (s : String) : unescapeJson (escapeJson s) = some s := by
  show (unescapeList (escapeList s.data)).map String.mk = some s
  rw [unescape_escapeList]
  rfl

theorem decodeOptInt_optIntToJson (r : Option Int) :
    decodeOptInt (optIntToJson r) = some r := by
  cases r <;> rfl

theorem decodeOptStr_optStrToJson (t : Option String) :
    decodeOptStr (optStrToJson t) = some t := by
  cases t with
  | none => rfl
  | some s => simp [optStrToJson, decodeOptStr, unescapeJson_escapeJson]

theorem decodeNode_encodeNode (n : GraphNode) : decodeNode (encodeNode n) = some n := by
  cases n with
  | movie i l r t =>
    simp only [encodeNode, decodeNode, unescapeJson_escapeJson,
      decodeOptInt_optIntToJson, decodeOptStr_optStrToJson]
  | person i l ro =>
    simp only [encodeNode, decodeNode, unescapeJson_escapeJson]

theorem decodeLink_encodeLink (l : GraphLink) : decodeLink (encodeLink l) = some l := by
  simp only [encodeLink, decodeLink, unescapeJson_escapeJson]

theorem decodeList_map (f : α → Json) (g : Json → Option α)
    (h : ∀ x, g (f x) = some x) (l : List α) :
    decodeList g (l.map f) = some l := by
  induction l with
  | nil => rfl
  | cons x xs ih => simp [decodeList, h, ih]

/-- C9: serializing any ExportGraph — titles and names with arbitrary
characters, non-ASCII included — and parsing the artifact back yields an
identical structure: same nodes in the same order, same links in the same
order, same field values. -/
theorem c9_serialization_roundtrip (g : ExportGraph) :
    decodeGraph (encodeGraph g) = some g := by
  simp only [encodeGraph, decodeGraph]
  rw [decodeList_map encodeNode decodeNode decodeNode_encodeNode,
    decodeList_map encodeLink decodeLink decodeLink_encodeLink]

end MovieGraph
